import Mathlib

/-!
# Verification of the Synology shutdown client (`synology_shutdown.py`)

Shallow embedding of the session-authenticated multi-endpoint command client.
HTTP interaction is modelled by an environment `Env : Nat → Req → HttpOutcome`
mapping the index of a request (its position in the sequence of effects the
client has performed so far) and the request descriptor to the transport
outcome.  Computations live in a writer/except monad `M`: the writer part
records the sequence of observable effects (HTTP requests, remote-shell
invocations), the except part models an uncaught Python exception.

JSON values are modelled by `JVal`, with `JVal.null` standing for Python
`None` (which is what `json` decodes JSON `null` to).  `dict.get` on a
non-dict raises `AttributeError`; this is modelled by `Except.error`.

Note on JSON decoding failures: the code targets a `requests` version that
has `requests.exceptions.JSONDecodeError` (it names it on line 91), which is
a subclass of `requests.RequestException`; hence a non-JSON body makes
`response.json()` raise an exception that the surrounding
`except requests.RequestException` handler catches, so `_make_request` and
`_make_request_with_endpoint` return `None` for a non-JSON body on every
path (for `start_stream` the dedicated inner handler fires first, with the
same `None` result).
-/

/-- JSON / decoded-Python values. `null` doubles as Python `None`. -/
inductive JVal where
  | null : JVal
  | bool : Bool → JVal
  | num : Int → JVal
  | str : String → JVal
  | arr : List JVal → JVal
  | obj : List (String × JVal) → JVal

/-- Python truthiness of a decoded JSON value. -/
def jTruthy : JVal → Bool
  | .null => false
  | .bool b => b
  | .num n => !(n == 0)
  | .str s => !(s == "")
  | .arr xs => !xs.isEmpty
  | .obj fs => !fs.isEmpty

/-- Python `d.get(k)` on a dict: the stored value, or `None` when absent.
Raises `AttributeError` (modelled as `Except.error`) when `d` is not a dict. -/
def dGetE (v : JVal) (k : String) : Except Unit JVal :=
  match v with
  | .obj fs => .ok ((List.lookup k fs).getD JVal.null)
  | _ => .error ()

/-- Python `d.get(k, dflt)` on a dict: the stored value when the key is
present (even if that value is `None`), else `dflt`; `AttributeError` when
`d` is not a dict. -/
def dGetDE (v : JVal) (k : String) (dflt : JVal) : Except Unit JVal :=
  match v with
  | .obj fs => .ok ((List.lookup k fs).getD dflt)
  | _ => .error ()

/-- Python `==` between a decoded value and `None`-or-`str`
(used for `project.get('name') == project_name`). -/
def pyEqName (v : JVal) (n : Option String) : Bool :=
  match v, n with
  | .null, none => true
  | .str s, some t => s == t
  | _, _ => false

/-- Python `==` between a decoded value and a string literal
(used for `status == 'RUNNING'` and the like). -/
def pyEqStrLit (v : JVal) (t : String) : Bool :=
  match v with
  | .str s => s == t
  | _ => false

/-- Python truthiness of an optional string argument (`None` and `''` falsy). -/
def optStrTruthy : Option String → Bool
  | none => false
  | some s => !(s == "")

/-- Python `str()` of a decoded value, as used by f-string interpolation of
the project id.  (Only the string case is exercised by well-formed data.) -/
def pyStr : JVal → String
  | .str s => s
  | .num n => toString n
  | .null => "None"
  | .bool true => "True"
  | .bool false => "False"
  | .arr _ => "<list>"
  | .obj _ => "<dict>"

/-- An optional-string argument as the Python value bound to the parameter. -/
def optToJ : Option String → JVal
  | none => .null
  | some s => .str s

/-- Evaluation of `result and result.get('success')` once `result` is known non-`None`:
falsy envelope short-circuits to `False`; a truthy non-dict raises. -/
def truthyAndSuccessE (v : JVal) : Except Unit Bool :=
  if jTruthy v then (dGetE v "success").map jTruthy else .ok false

/-- Evaluation of `if result and result.get('success')` for `result : Optional[dict]`. -/
def optSuccessE (r : Option JVal) : Except Unit Bool :=
  match r with
  | none => .ok false
  | some v => truthyAndSuccessE v

/-- An HTTP request descriptor (URL path, API namespace, method, the full
parameter assignment sent on the wire, and whether it was a form POST). -/
structure Req where
  endpoint : String
  api : String
  method : String
  params : List (String × JVal)
  usePost : Bool

/-- An observable effect of the client: an HTTP request or a remote-shell
(`sshpass`/`ssh`) invocation. -/
inductive Event where
  | http (r : Req) : Event
  | sshRun (port : Nat) (cmd : List String) : Event

/-- Transport outcome of one HTTP request: a `requests.RequestException`
(connection error, non-2xx status, timeout, or a JSON decode failure —
see the header note), or a 2xx response whose body decoded to `some v`,
or a 2xx response with no decodable JSON body (`body none`). -/
inductive HttpOutcome where
  | exc : HttpOutcome
  | body (j : Option JVal) : HttpOutcome

/-- The environment: outcome of the `t`-th effect when it is HTTP request `r`. -/
abbrev Env := Nat → Req → HttpOutcome

/-- Writer/except monad: given the environment and the number of effects
performed so far, a computation yields a result (or an uncaught exception)
and the list of effects it performed. -/
abbrev M (α : Type) := Env → Nat → Except Unit α × List Event

instance : Monad M where
  pure a := fun _ _ => (Except.ok a, [])
  bind x f := fun env t =>
    match x env t with
    | (Except.error e, tr) => (Except.error e, tr)
    | (Except.ok a, tr) =>
      let p := f a env (t + tr.length)
      (p.1, tr ++ p.2)

/-- Lift a pure fallible computation (no effects). -/
def liftE (e : Except Unit α) : M α := fun _ _ => (e, [])

/-- Perform one HTTP request, recording it and consuming one time slot. -/
def httpReq (r : Req) : M HttpOutcome := fun env t => (.ok (env t r), [.http r])

/-- Record a remote-shell invocation. -/
def sshEvent (port : Nat) (cmd : List String) : M PUnit :=
  fun _ _ => (.ok ⟨⟩, [.sshRun port cmd])

/-- Model of `try: x except Exception: h` — the handler sees the effects already
performed by `x`. -/
def catchM (x : M α) (h : M α) : M α := fun env t =>
  match x env t with
  | (Except.error _, tr) =>
    let p := h env (t + tr.length)
    (p.1, tr ++ p.2)
  | ok => ok

/-- Client state (`SynologyShutdown.__init__`): connection parameters plus the
mutable `session_id` (Python value; `JVal.null` is the initial `None`). -/
structure Syno where
  host : String
  username : String
  password : String
  port : Nat
  use_https : Bool
  session_id : JVal

/-- Request descriptor built by `_make_request_with_endpoint`:
`params.update({'api': api, 'method': method, 'version': 1})`. -/
def reqOfWE (endpoint api method : String) (params : List (String × JVal))
    (usePost : Bool) : Req :=
  { endpoint := endpoint, api := api, method := method,
    params := params ++ [("api", .str api), ("method", .str method), ("version", .num 1)],
    usePost := usePost }

/-- Request descriptor built by `_make_request`: the auth API goes to
`auth.cgi` with version 3, everything else to a path equal to the api string
with version 1; always a GET. -/
def reqOfMR (api method : String) (params : List (String × JVal)) : Req :=
  let v : Int := if api == "SYNO.API.Auth" then 3 else 1
  { endpoint := if api == "SYNO.API.Auth" then "auth.cgi" else api,
    api := api, method := method,
    params := params ++ [("api", .str api), ("method", .str method), ("version", .num v)],
    usePost := false }

/-- Embeds `SynologyShutdown._make_request` (lines 35–53): issue the request; a
`RequestException` (including a JSON decode failure, see header note) is
caught and yields `None`; otherwise the decoded envelope is returned. -/
def make_request (api method : String) (params : List (String × JVal)) :
    M (Option JVal) := do
  let o ← httpReq (reqOfMR api method params)
  match o with
  | .exc => pure none
  | .body j => pure j

/-- Embeds `SynologyShutdown._make_request_with_endpoint` (lines 55–100): same
response handling; for `start_stream` a non-JSON body is caught by the
dedicated inner handler (lines 89–95) and also yields `None`. -/
def make_request_with_endpoint (endpoint api method : String)
    (params : List (String × JVal)) (usePost : Bool) : M (Option JVal) := do
  let o ← httpReq (reqOfWE endpoint api method params usePost)
  match o with
  | .exc => pure none
  | .body j => pure j

/-- The request issued by `login`. -/
def loginReqOf (s : Syno) : Req :=
  reqOfMR "SYNO.API.Auth" "login"
    [("account", .str s.username), ("passwd", .str s.password),
     ("session", .str "DSM"), ("format", .str "sid")]

/-- Embeds `SynologyShutdown.login` (lines 102–120).  On `result and
result.get('success')` the session id becomes `result.get('data', {}).get('sid')`
and the method returns `True`; otherwise `False`.  Returns the updated client
state alongside the boolean. -/
def login (s : Syno) : M (Syno × Bool) := do
  let result ← make_request "SYNO.API.Auth" "login"
    [("account", .str s.username), ("passwd", .str s.password),
     ("session", .str "DSM"), ("format", .str "sid")]
  match result with
  | none => pure (s, false)
  | some v =>
    if jTruthy v then do
      let succ ← liftE (dGetE v "success")
      if jTruthy succ then do
        let data ← liftE (dGetDE v "data" (.obj []))
        let sid ← liftE (dGetE data "sid")
        pure ({ s with session_id := sid }, true)
      else pure (s, false)
    else pure (s, false)

/-- The ordered candidate (endpoint, api, method) triples of
`shutdown_via_api` (lines 135–139). -/
def apiEndpoints : List (String × String × String) :=
  [("entry.cgi", "SYNO.Core.System", "shutdown"),
   ("entry.cgi", "SYNO.Core.System.Utilization", "shutdown"),
   ("entry.cgi", "SYNO.DSM.System", "shutdown")]

/-- The request issued for one shutdown candidate. -/
def candReqOf (s : Syno) (c : String × String × String) : Req :=
  reqOfWE c.1 c.2.1 c.2.2 [("_sid", s.session_id)] false

/-- The candidate loop of `shutdown_via_api` (lines 141–150): first explicit
success returns `True`; explicit failure is logged and the next candidate is
tried; exhaustion returns `False`. -/
def tryCandidates (s : Syno) : List (String × String × String) → M Bool
  | [] => pure false
  | c :: rest => do
    let result ← make_request_with_endpoint c.1 c.2.1 c.2.2
      [("_sid", s.session_id)] false
    let ok ← liftE (optSuccessE result)
    if ok then pure true else tryCandidates s rest

/-- Embeds `SynologyShutdown.shutdown_via_api` (lines 122–150). -/
def shutdown_via_api (s : Syno) : M Bool :=
  if !(jTruthy s.session_id) then pure false
  else tryCandidates s apiEndpoints

/-- The `list` request issued by `get_projects`. -/
def listReqOf (s : Syno) : Req :=
  reqOfWE "entry.cgi" "SYNO.Docker.Project" "list" [("_sid", s.session_id)] false

/-- Evaluation of `list(data.values()) if isinstance(data, dict) else []` (line 168). -/
def projectsOfData : JVal → List JVal
  | .obj fs => fs.map Prod.snd
  | _ => []

/-- Embeds `SynologyShutdown.get_projects` (lines 152–173).  `some ps` models the
returned `{'projects': ps}` dict, `none` models `None`. -/
def get_projects (s : Syno) : M (Option (List JVal)) :=
  if !(jTruthy s.session_id) then pure none
  else do
    let result ← make_request_with_endpoint "entry.cgi" "SYNO.Docker.Project"
      "list" [("_sid", s.session_id)] false
    match result with
    | none => pure none
    | some v =>
      if jTruthy v then do
        let succ ← liftE (dGetE v "success")
        if jTruthy succ then do
          let data ← liftE (dGetDE v "data" (.obj []))
          pure (some (projectsOfData data))
        else pure none
      else pure none

/-- Name-to-id resolution loop (lines 192–195 / 284–287): for the first
record whose `name` equals the given argument, take its `id`; no match
leaves the id `None`. -/
def resolveIdE : List JVal → Option String → Except Unit JVal
  | [], _ => .ok .null
  | p :: rest, pname => do
    let nm ← dGetE p "name"
    if pyEqName nm pname then dGetE p "id"
    else resolveIdE rest pname

/-- The status-inspection loop shared by the already-in-target-status guards
(lines 212–219 / 304–311) and the post-`start_stream` verification poll
(lines 243–250): the first record whose `name` equals the argument decides —
`true` iff its `status` (default `'unknown'`) equals `target`; any other
record, or no match, decides `false`. -/
def firstNameStatusIsE : List JVal → Option String → String → Except Unit Bool
  | [], _, _ => .ok false
  | p :: rest, pname, target => do
    let nm ← dGetE p "name"
    if pyEqName nm pname then do
      let st ← dGetDE p "status" (.str "unknown")
      pure (pyEqStrLit st target)
    else firstNameStatusIsE rest pname target

/-- One list query followed by the status-inspection loop, as the guard and
the verification poll both do; a failed list query decides `false`. -/
def checkStatusOnce (s : Syno) (pname : Option String) (target : String) :
    M Bool := do
  let pd ← get_projects s
  match pd with
  | none => pure false
  | some ps => liftE (firstNameStatusIsE ps pname target)

/-- Result of the name-resolution phase: an early `return b`, or continue
with the resolved id. -/
inductive PhaseRes where
  | ret (b : Bool) : PhaseRes
  | cont (pid : JVal) : PhaseRes

/-- Lines 186–199 / 278–291: when a name is given and no id, resolve the id
via the project list; a failed list query or a falsy resolved id is an early
`return False`. -/
def resolvePhase (s : Syno) (pname : Option String) (pid0 : JVal) : M PhaseRes :=
  if optStrTruthy pname && !(jTruthy pid0) then do
    let pd ← get_projects s
    match pd with
    | none => pure (.ret false)
    | some ps => do
      let pid ← liftE (resolveIdE ps pname)
      if jTruthy pid then pure (.cont pid) else pure (.ret false)
  else pure (.cont pid0)

/-- The `start_stream` request with the `%22`-quoted id (lines 224–234). -/
def startStreamReqOf (s : Syno) (pid : JVal) : Req :=
  reqOfWE "entry.cgi" "SYNO.Docker.Project" "start_stream"
    [("_sid", s.session_id), ("id", .str ("%22" ++ pyStr pid ++ "%22"))] true

/-- The plain `start` request (line 259). -/
def startReqOf (s : Syno) (pid : JVal) : Req :=
  reqOfWE "entry.cgi" "SYNO.Docker.Project" "start"
    [("_sid", s.session_id), ("id", pid)] true

/-- The regular `start` fallback (lines 258–265). -/
def regularStart (s : Syno) (pid : JVal) : M Bool := do
  let result ← make_request_with_endpoint "entry.cgi" "SYNO.Docker.Project"
    "start" [("_sid", s.session_id), ("id", pid)] true
  let ok ← liftE (optSuccessE result)
  pure ok

/-- Embeds `SynologyShutdown.start_project` (lines 175–265): fail fast without a
session; fail when neither name nor id is given; resolve the id by name when
needed; short-circuit with success when the first record matching the name
is already `RUNNING`; issue `start_stream` with the quoted id; a `None`
result (non-JSON body or transport failure) triggers one delayed
verification poll whose `RUNNING` verdict is success; an explicit success
returns `True`; anything else falls through to the regular `start` method. -/
def start_project (s : Syno) (pname pid0 : Option String) : M Bool :=
  if !(jTruthy s.session_id) then pure false
  else if !(optStrTruthy pname) && !(optStrTruthy pid0) then pure false
  else do
    let r ← resolvePhase s pname (optToJ pid0)
    match r with
    | .ret b => pure b
    | .cont pid => do
      let g ← checkStatusOnce s pname "RUNNING"
      if g then pure true
      else do
        let result ← make_request_with_endpoint "entry.cgi" "SYNO.Docker.Project"
          "start_stream"
          [("_sid", s.session_id), ("id", .str ("%22" ++ pyStr pid ++ "%22"))] true
        match result with
        | none => do
          let verified ← checkStatusOnce s pname "RUNNING"
          if verified then pure true else regularStart s pid
        | some v => do
          let ok ← liftE (truthyAndSuccessE v)
          if ok then pure true
          else if jTruthy v then do
            let errObj ← liftE (dGetDE v "error" (.obj []))
            let _ ← liftE (dGetE errObj "code")
            regularStart s pid
          else regularStart s pid

/-- The quoted-id `stop` request (lines 313–324). -/
def stopQuotedReqOf (s : Syno) (pid : JVal) : Req :=
  reqOfWE "entry.cgi" "SYNO.Docker.Project" "stop"
    [("_sid", s.session_id), ("id", .str ("%22" ++ pyStr pid ++ "%22"))] true

/-- The plain-id `stop` request (line 333). -/
def stopPlainReqOf (s : Syno) (pid : JVal) : Req :=
  reqOfWE "entry.cgi" "SYNO.Docker.Project" "stop"
    [("_sid", s.session_id), ("id", pid)] true

/-- Embeds `SynologyShutdown.stop_project` (lines 267–341): same head as
`start_project` with target status `STOPPED`; the `stop` method is tried
first with the quoted id, then with the plain id; explicit success on either
returns `True`, otherwise `False`. -/
def stop_project (s : Syno) (pname pid0 : Option String) : M Bool :=
  if !(jTruthy s.session_id) then pure false
  else if !(optStrTruthy pname) && !(optStrTruthy pid0) then pure false
  else do
    let r ← resolvePhase s pname (optToJ pid0)
    match r with
    | .ret b => pure b
    | .cont pid => do
      let g ← checkStatusOnce s pname "STOPPED"
      if g then pure true
      else do
        let result ← make_request_with_endpoint "entry.cgi" "SYNO.Docker.Project"
          "stop"
          [("_sid", s.session_id), ("id", .str ("%22" ++ pyStr pid ++ "%22"))] true
        let ok ← liftE (optSuccessE result)
        if ok then pure true
        else do
          let result2 ← make_request_with_endpoint "entry.cgi" "SYNO.Docker.Project"
            "stop" [("_sid", s.session_id), ("id", pid)] true
          let ok2 ← liftE (optSuccessE result2)
          pure ok2

/-- The argument vector passed to `subprocess.run` (lines 385–391). -/
def sshCmd (s : Syno) (ssh_port : Nat) : List String :=
  ["sshpass", "-p", s.password,
   "ssh", "-o", "StrictHostKeyChecking=no",
   "-p", toString ssh_port,
   s.username ++ "@" ++ s.host,
   "sudo shutdown -h now"]

/-- Outcome of the `subprocess.run` call in `shutdown_via_ssh`: the process
completed with an exit code and captured streams, or `subprocess.TimeoutExpired`
was raised, or `FileNotFoundError` (the `sshpass` binary is absent), or some
other exception. -/
inductive SshOutcome where
  | completed (returncode : Int) (stdout stderr : String) : SshOutcome
  | timeout : SshOutcome
  | fileNotFound : SshOutcome
  | otherError (msg : String) : SshOutcome

/-- The diagnostic logged by `shutdown_via_ssh` on each path. -/
inductive SshDiag where
  | success : SshDiag
  | sshFailed (stderr : String) : SshDiag
  | timedOut : SshDiag
  | sshpassMissing : SshDiag
  | otherFail (msg : String) : SshDiag

/-- The try/except ladder of `shutdown_via_ssh` (lines 393–410): exit code 0
is success; a non-zero exit logs the captured stderr and returns `False`;
`TimeoutExpired`, `FileNotFoundError` and any other exception each return
`False` with their own diagnostic. -/
def sshClassify : SshOutcome → Bool × SshDiag
  | .completed rc _ err =>
    if rc == 0 then (true, .success) else (false, .sshFailed err)
  | .timeout => (false, .timedOut)
  | .fileNotFound => (false, .sshpassMissing)
  | .otherError m => (false, .otherFail m)

/-- Embeds `SynologyShutdown.shutdown_via_ssh` (lines 380–410), recording the
remote-shell invocation as an observable effect; `o` is the outcome of the
`subprocess.run` call. -/
def shutdown_via_ssh (s : Syno) (ssh_port : Nat) (o : SshOutcome) : M Bool := do
  let _ ← sshEvent ssh_port (sshCmd s ssh_port)
  pure (sshClassify o).1

/-- The logout request (line 416): `_make_request('auth.cgi', 'logout', ...)` —
note the path string is passed in the `api` position. -/
def logoutReqOf (s : Syno) : Req :=
  reqOfMR "auth.cgi" "logout" [("_sid", s.session_id)]

/-- Embeds `SynologyShutdown.logout` (lines 412–417): best-effort, only when a
truthy session id is held. -/
def logout (s : Syno) : M PUnit :=
  if jTruthy s.session_id then do
    let _ ← make_request "auth.cgi" "logout" [("_sid", s.session_id)]
    pure ⟨⟩
  else pure ⟨⟩

/-- The body between login and logout in `shutdown` (lines 425–429): the API
path runs only when `use_ssh` is false; the SSH fallback runs only when
`use_ssh` is true and no success was accumulated. -/
def attemptBody (s1 : Syno) (use_ssh : Bool) (ssh_port : Nat) (o : SshOutcome) :
    M Bool := do
  let success ← if !use_ssh then shutdown_via_api s1 else pure false
  if !success && use_ssh then shutdown_via_ssh s1 ssh_port o
  else pure success

/-- Embeds `SynologyShutdown.shutdown` (lines 419–440): on login success run the
attempt body, then logout, then return the accumulated result; on login
failure return `False`; any exception inside the `try` block is caught and
converted to `False` (`KeyboardInterrupt` and `Exception` handlers alike). -/
def shutdown (s : Syno) (use_ssh : Bool) (ssh_port : Nat) (o : SshOutcome) :
    M Bool :=
  catchM
    (do
      let (s1, ok) ← login s
      if ok then do
        let b ← attemptBody s1 use_ssh ssh_port o
        let _ ← logout s1
        pure b
      else pure false)
    (pure false)

/-- The decoded body of a transport outcome (`None` for an exception or a
non-JSON body). -/
def httpBody : HttpOutcome → Option JVal
  | .exc => none
  | .body j => j

/-- A concrete client state holding a session token. -/
def sA : Syno :=
  { host := "nas.local", username := "admin", password := "pw",
    port := 5000, use_https := true, session_id := .str "SID" }

/-- An environment in which every request fails with a transport error. -/
def envAllExc : Env := fun _ _ => .exc

/-- A concrete client state holding no session token. -/
def sNull : Syno :=
  { host := "nas.local", username := "admin", password := "pw",
    port := 5000, use_https := true, session_id := .null }

/-- An environment whose every response is a success envelope carrying no
`data`/`sid` payload. -/
def envLoginNoSid : Env := fun _ _ => .body (some (.obj [("success", .bool true)]))

/-- A project record as returned by the appliance. -/
def projRec : JVal :=
  .obj [("name", .str "iot"), ("id", .str "42"), ("status", .str "RUNNING")]

/-- An environment whose every response is a success envelope with an
array-shaped `data` payload holding one project record. -/
def envListArr : Env := fun _ _ =>
  .body (some (.obj [("success", .bool true), ("data", .arr [projRec])]))

/-- An environment whose every response is a success envelope with a
mapping-shaped `data` payload holding one project record. -/
def envListDict : Env := fun _ _ =>
  .body (some (.obj [("success", .bool true), ("data", .obj [("42", projRec)])]))

/-- Is this effect the logout request? -/
def isLogoutEvent : Event → Bool
  | .http r => r.method == "logout"
  | _ => false

/-- Is this effect a remote-shell invocation? -/
def isSshEvent : Event → Bool
  | .sshRun _ _ => true
  | _ => false

/-- Is this effect one of the shutdown candidate requests? -/
def isShutdownCandEvent : Event → Bool
  | .http r => r.method == "shutdown"
  | _ => false

/-- Is this effect the project-list query? -/
def isListEvent : Event → Bool
  | .http r => r.method == "list"
  | _ => false

/-- Is this effect the `start_stream` request? -/
def isStartStreamEvent : Event → Bool
  | .http r => r.method == "start_stream"
  | _ => false

/-- Number of effects in a trace satisfying a predicate. -/
def countE (p : Event → Bool) (tr : List Event) : Nat := (tr.filter p).length

/-- Pure verdict of `get_projects` as a function of the decoded body. -/
def getProjectsOut : Option JVal → Except Unit (Option (List JVal))
  | none => .ok none
  | some v =>
    if jTruthy v then
      match dGetE v "success" with
      | .error e => .error e
      | .ok succ =>
        if jTruthy succ then
          match dGetDE v "data" (.obj []) with
          | .error e => .error e
          | .ok data => .ok (some (projectsOfData data))
        else .ok none
    else .ok none

/-- Pure verdict of one status check (the already-in-target-status guard and
the post-`start_stream` verification poll) as a function of the decoded
list-response body. -/
def checkStatusOut (b : Option JVal) (pname : Option String) (target : String) :
    Except Unit Bool :=
  match getProjectsOut b with
  | .error e => .error e
  | .ok none => .ok false
  | .ok (some ps) => firstNameStatusIsE ps pname target

/-- Pure verdict of the name-resolution phase as a function of the decoded
list-response body. -/
def resolveOut (b : Option JVal) (pname : Option String) : Except Unit PhaseRes :=
  match getProjectsOut b with
  | .error e => .error e
  | .ok none => .ok (.ret false)
  | .ok (some ps) =>
    match resolveIdE ps pname with
    | .error e => .error e
    | .ok pid => if jTruthy pid then .ok (.cont pid) else .ok (.ret false)

/-- Did this fallible computation complete without an exception? -/
def exceptOk : Except Unit α → Bool
  | .ok _ => true
  | .error _ => false

/-- An environment in which login succeeds with a session token and every
later candidate request returns a decodable JSON body that is a (truthy,
non-dict) array, on which `result.get('success')` raises `AttributeError`. -/
def envRaise : Env := fun t _ =>
  match t with
  | 0 => .body (some (.obj [("success", .bool true), ("data", .obj [("sid", .str "SID")])]))
  | _ => .body (some (.arr [.num 1]))

/-- Did `login` return `True`? -/
def loginOkB (s : Syno) (env : Env) (t : Nat) : Bool :=
  match (login s env t).1 with
  | .ok (_, b) => b
  | .error _ => false

/-- A project record with the given name, id and status. -/
def recNIS (n i st : String) : JVal :=
  .obj [("name", .str n), ("id", .str i), ("status", .str st)]

/-- A successful list envelope whose mapping-shaped data holds one record
under key `k`. -/
def listEnvelope (k : String) (rec : JVal) : JVal :=
  .obj [("success", .bool true), ("data", .obj [(k, rec)])]

/-- Environment whose list responses report the bundle `iot` RUNNING. -/
def envC5start : Env := fun _ _ =>
  .body (some (listEnvelope "42" (recNIS "iot" "42" "RUNNING")))

/-- Environment whose list responses report the bundle `iot` STOPPED. -/
def envC5stop : Env := fun _ _ =>
  .body (some (listEnvelope "42" (recNIS "iot" "42" "STOPPED")))

/-- Environment whose first request (the guard's list query) reports the
sole bundle `iot` (id `42`) already RUNNING; everything later fails. -/
def envC10 : Env := fun t _ =>
  match t with
  | 0 => .body (some (.obj [("success", .bool true), ("data", .obj [("42", projRec)])]))
  | _ => .exc

/-- Environment for the ambiguous-`start_stream` scenario: the guard's list
query fails with a transport error, the `start_stream` response has no
decodable body, and the verification re-query reports the bundle RUNNING. -/
def envC4 : Env := fun t _ =>
  match t with
  | 0 => .exc
  | 1 => .body none
  | _ => .body (some (listEnvelope "42" (recNIS "iot" "42" "RUNNING")))

theorem bind_run (x : M α) (f : α → M β) (env : Env) (t : Nat) :
    (x >>= f) env t =
      match x env t with
      | (Except.error e, tr) => (Except.error e, tr)
      | (Except.ok a, tr) =>
        let p := f a env (t + tr.length)
        (p.1, tr ++ p.2) := rfl

theorem pure_run (a : α) (env : Env) (t : Nat) :
    (pure a : M α) env t = (Except.ok a, []) := rfl

theorem liftE_run (e : Except Unit α) (env : Env) (t : Nat) :
    liftE e env t = (e, []) := rfl

theorem httpReq_run (r : Req) (env : Env) (t : Nat) :
    httpReq r env t = (.ok (env t r), [.http r]) := rfl

theorem catchM_run (x h : M α) (env : Env) (t : Nat) :
    catchM x h env t =
      match x env t with
      | (Except.error _, tr) =>
        let p := h env (t + tr.length)
        (p.1, tr ++ p.2)
      | ok => ok := rfl

theorem mrwe_run (endpoint api method : String) (params : List (String × JVal))
    (usePost : Bool) (env : Env) (t : Nat) :
    make_request_with_endpoint endpoint api method params usePost env t =
      (.ok (httpBody (env t (reqOfWE endpoint api method params usePost))),
       [.http (reqOfWE endpoint api method params usePost)]) := by
  cases h : env t (reqOfWE endpoint api method params usePost) <;>
    simp [make_request_with_endpoint, bind_run, httpReq_run, h, pure_run, httpBody]

theorem mr_run (api method : String) (params : List (String × JVal))
    (env : Env) (t : Nat) :
    make_request api method params env t =
      (.ok (httpBody (env t (reqOfMR api method params))),
       [.http (reqOfMR api method params)]) := by
  cases h : env t (reqOfMR api method params) <;>
    simp [make_request, bind_run, httpReq_run, h, pure_run, httpBody]

theorem tryCandidates_cons (s : Syno) (c : String × String × String)
    (rest : List (String × String × String)) (env : Env) (t : Nat) :
    tryCandidates s (c :: rest) env t =
      match optSuccessE (httpBody (env t (candReqOf s c))) with
      | .error e => (.error e, [.http (candReqOf s c)])
      | .ok true => (.ok true, [.http (candReqOf s c)])
      | .ok false =>
        let p := tryCandidates s rest env (t + 1)
        (p.1, .http (candReqOf s c) :: p.2) := by
  rcases h : optSuccessE (httpBody (env t (candReqOf s c))) with e | b
  · simp only [candReqOf] at h
    simp [tryCandidates, bind_run, mrwe_run, liftE_run, candReqOf, h]
  · simp only [candReqOf] at h
    cases b <;>
      simp [tryCandidates, bind_run, mrwe_run, liftE_run, candReqOf, h, pure_run]

theorem tryCandidates_nil (s : Syno) (env : Env) (t : Nat) :
    tryCandidates s [] env t = (.ok false, []) := rfl

/-- C1: with a session established, `shutdown_via_api` attempts the three
candidate (endpoint, api, method) triples in their declared order, each at
most once; the first candidate whose decoded response has a truthy success
flag terminates the loop with `True` and no later candidate is attempted;
if every candidate fails to yield explicit success the operation returns
`False`.  (An `.error` verdict models the uncaught `AttributeError` raised
when a truthy decoded body is not a dict; the loop stops there too, with no
later candidate attempted.) -/
theorem shutdown_via_api_candidate_order (env : Env) (t : Nat) (s : Syno)
    (hs : jTruthy s.session_id = true) :
    shutdown_via_api s env t =
      (let r1 := candReqOf s ("entry.cgi", "SYNO.Core.System", "shutdown")
       let r2 := candReqOf s ("entry.cgi", "SYNO.Core.System.Utilization", "shutdown")
       let r3 := candReqOf s ("entry.cgi", "SYNO.DSM.System", "shutdown")
       match optSuccessE (httpBody (env t r1)) with
       | .error e => (.error e, [.http r1])
       | .ok true => (.ok true, [.http r1])
       | .ok false =>
         match optSuccessE (httpBody (env (t + 1) r2)) with
         | .error e => (.error e, [.http r1, .http r2])
         | .ok true => (.ok true, [.http r1, .http r2])
         | .ok false =>
           match optSuccessE (httpBody (env (t + 1 + 1) r3)) with
           | .error e => (.error e, [.http r1, .http r2, .http r3])
           | .ok true => (.ok true, [.http r1, .http r2, .http r3])
           | .ok false => (.ok false, [.http r1, .http r2, .http r3])) := by
  rcases h1 : optSuccessE (httpBody (env t
      (candReqOf s ("entry.cgi", "SYNO.Core.System", "shutdown")))) with e1 | b1
  · simp [shutdown_via_api, hs, apiEndpoints, tryCandidates_cons, h1]
  · cases b1
    · rcases h2 : optSuccessE (httpBody (env (t + 1)
          (candReqOf s ("entry.cgi", "SYNO.Core.System.Utilization", "shutdown")))) with e2 | b2
      · simp [shutdown_via_api, hs, apiEndpoints, tryCandidates_cons, h1, h2]
      · cases b2
        · rcases h3 : optSuccessE (httpBody (env (t + 1 + 1)
              (candReqOf s ("entry.cgi", "SYNO.DSM.System", "shutdown")))) with e3 | b3
          · simp [shutdown_via_api, hs, apiEndpoints, tryCandidates_cons,
              tryCandidates_nil, h1, h2, h3]
          · cases b3 <;>
              simp [shutdown_via_api, hs, apiEndpoints, tryCandidates_cons,
                tryCandidates_nil, h1, h2, h3]
        · simp [shutdown_via_api, hs, apiEndpoints, tryCandidates_cons, h1, h2]
    · simp [shutdown_via_api, hs, apiEndpoints, tryCandidates_cons, h1]

/-- Witness for `shutdown_via_api_candidate_order`: with a session held and
every candidate failing, all three are attempted in order and the result is
`False`. -/
theorem shutdown_via_api_candidate_order_witness :
    jTruthy sA.session_id = true ∧
    shutdown_via_api sA envAllExc 0 =
      (.ok false,
       [.http (candReqOf sA ("entry.cgi", "SYNO.Core.System", "shutdown")),
        .http (candReqOf sA ("entry.cgi", "SYNO.Core.System.Utilization", "shutdown")),
        .http (candReqOf sA ("entry.cgi", "SYNO.DSM.System", "shutdown"))]) := by
  refine ⟨rfl, ?_⟩
  rw [shutdown_via_api_candidate_order envAllExc 0 sA rfl]
  rfl

/-- C8: every authenticated operation invoked while no session token is held
returns its failure result immediately, with an empty effect trace (no HTTP
request is issued). -/
theorem not_authenticated_fails_fast (env : Env) (t : Nat) (s : Syno)
    (n i : Option String) (h : jTruthy s.session_id = false) :
    shutdown_via_api s env t = (.ok false, []) ∧
    get_projects s env t = (.ok none, []) ∧
    start_project s n i env t = (.ok false, []) ∧
    stop_project s n i env t = (.ok false, []) := by
  refine ⟨?_, ?_, ?_, ?_⟩ <;>
    simp [shutdown_via_api, get_projects, start_project, stop_project, h, pure_run]

/-- Witness for `not_authenticated_fails_fast` at a concrete unauthenticated
client. -/
theorem not_authenticated_fails_fast_witness :
    jTruthy sNull.session_id = false ∧
    shutdown_via_api sNull envAllExc 0 = (.ok false, []) ∧
    start_project sNull (some "iot") none envAllExc 0 = (.ok false, []) := by
  have h := not_authenticated_fails_fast envAllExc 0 sNull (some "iot") none rfl
  exact ⟨rfl, h.1, h.2.2.1⟩

/-- C2 counterexample: on a response whose envelope has a truthy success
flag but no `sid` (here: no `data` object at all), `login` returns `True` —
it does not report failure; the stored session id is `None` (falsy), so no
authenticated session exists even though login reported success. -/
theorem login_missing_sid_counterexample :
    login sNull envLoginNoSid 0 =
      (.ok ({ sNull with session_id := JVal.null }, true),
       [.http (loginReqOf sNull)]) ∧
    jTruthy JVal.null = false := ⟨rfl, rfl⟩

/-- C2 amended: when the decoded login envelope is a truthy dict with a
truthy success flag whose `data` payload is a dict (or absent, defaulting to
`{}`) without a `sid`, `login` returns `True` and stores `None` as the
session id: success is reported despite the missing token, and only the
subsequent fail-fast guards make the missing session observable. -/
theorem login_success_flag_without_sid (env : Env) (t : Nat) (s : Syno)
    (fs gs : List (String × JVal))
    (h1 : env t (loginReqOf s) = .body (some (.obj fs)))
    (h2 : jTruthy (JVal.obj fs) = true)
    (h3 : jTruthy ((List.lookup "success" fs).getD JVal.null) = true)
    (h4 : (List.lookup "data" fs).getD (JVal.obj []) = JVal.obj gs)
    (h5 : (List.lookup "sid" gs).getD JVal.null = JVal.null) :
    login s env t =
      (.ok ({ s with session_id := JVal.null }, true),
       [.http (loginReqOf s)]) := by
  simp only [loginReqOf] at h1
  simp [login, loginReqOf, bind_run, mr_run, liftE_run, pure_run, h1, h2, h3, h4, h5,
    dGetE, dGetDE, httpBody]

/-- Witness for `login_success_flag_without_sid`. -/
theorem login_success_flag_without_sid_witness :
    login sNull envLoginNoSid 0 =
      (.ok ({ sNull with session_id := JVal.null }, true),
       [.http (loginReqOf sNull)]) :=
  login_success_flag_without_sid envLoginNoSid 0 sNull
    [("success", JVal.bool true)] [] rfl rfl rfl rfl rfl

/-- C7 counterexample: on a successful list response whose `data` payload is
an array, `get_projects` returns the empty sequence — it drops the array's
elements instead of normalizing them (only the mapping shape is handled). -/
theorem get_projects_array_counterexample :
    envListArr 0 (listReqOf sA) =
      .body (some (.obj [("success", .bool true), ("data", .arr [projRec])])) ∧
    get_projects sA envListArr 0 = (.ok (some []), [.http (listReqOf sA)]) :=
  ⟨rfl, rfl⟩

/-- C7 amended: on a successful list response, `get_projects` normalizes a
mapping-shaped `data` payload to the sequence of its values, and maps any
non-mapping payload — an array included — to the empty sequence. -/
theorem get_projects_normalization (env : Env) (t : Nat) (s : Syno)
    (fs : List (String × JVal))
    (hs : jTruthy s.session_id = true)
    (h1 : env t (listReqOf s) = .body (some (.obj fs)))
    (h2 : jTruthy (JVal.obj fs) = true)
    (h3 : jTruthy ((List.lookup "success" fs).getD JVal.null) = true) :
    get_projects s env t =
      (.ok (some (projectsOfData ((List.lookup "data" fs).getD (JVal.obj [])))),
       [.http (listReqOf s)]) := by
  simp only [listReqOf] at h1
  simp [get_projects, listReqOf, bind_run, mrwe_run, liftE_run, pure_run, hs, h1, h2, h3,
    dGetE, dGetDE, httpBody]

/-- Witness for `get_projects_normalization`: the mapping shape yields the
sequence of values. -/
theorem get_projects_normalization_witness :
    get_projects sA envListDict 0 = (.ok (some [projRec]), [.http (listReqOf sA)]) := by
  have h := get_projects_normalization envListDict 0 sA
    [("success", JVal.bool true), ("data", JVal.obj [("42", projRec)])] rfl rfl rfl rfl
  simpa using h

theorem countE_append (p : Event → Bool) (a b : List Event) :
    countE p (a ++ b) = countE p a + countE p b := by
  simp [countE, List.filter_append]

theorem countE_eq_zero (p : Event → Bool) (tr : List Event)
    (h : ∀ e ∈ tr, p e = false) : countE p tr = 0 := by
  simp only [countE, List.length_eq_zero, List.filter_eq_nil_iff]
  intro e he
  simp [h e he]

theorem login_trace (s : Syno) (env : Env) (t : Nat) :
    (login s env t).2 = [.http (loginReqOf s)] := by
  simp only [login, bind_run, mr_run, loginReqOf]
  rcases httpBody (env t (reqOfMR "SYNO.API.Auth" "login"
      [("account", .str s.username), ("passwd", .str s.password),
       ("session", .str "DSM"), ("format", .str "sid")])) with _ | v
  · rfl
  · rcases hv : jTruthy v with _ | _
    · simp [hv, pure_run]
    · rcases hsucc : dGetE v "success" with e | succ
      · simp [hv, hsucc, bind_run, liftE_run]
      · rcases hst : jTruthy succ with _ | _
        · simp [hv, hsucc, hst, bind_run, liftE_run, pure_run]
        · rcases hd : dGetDE v "data" (.obj []) with e | data
          · simp [hv, hsucc, hst, hd, bind_run, liftE_run]
          · rcases hsid : dGetE data "sid" with e | sid <;>
              simp [hv, hsucc, hst, hd, hsid, bind_run, liftE_run, pure_run]

theorem logout_run (s : Syno) (env : Env) (t : Nat) :
    logout s env t =
      (.ok ⟨⟩, if jTruthy s.session_id then [.http (logoutReqOf s)] else []) := by
  rcases h : jTruthy s.session_id with _ | _ <;>
    simp [logout, h, bind_run, mr_run, pure_run, logoutReqOf]

theorem get_projects_run (s : Syno) (env : Env) (t : Nat)
    (hs : jTruthy s.session_id = true) :
    get_projects s env t =
      (getProjectsOut (httpBody (env t (listReqOf s))), [.http (listReqOf s)]) := by
  simp only [get_projects, hs, Bool.not_true, Bool.false_eq_true, if_false,
    bind_run, mrwe_run, listReqOf]
  rcases httpBody (env t (reqOfWE "entry.cgi" "SYNO.Docker.Project" "list"
      [("_sid", s.session_id)] false)) with _ | v
  · rfl
  · rcases hv : jTruthy v with _ | _
    · simp [hv, getProjectsOut, pure_run]
    · rcases hsucc : dGetE v "success" with e | succ
      · simp [hv, hsucc, getProjectsOut, bind_run, liftE_run]
      · rcases hst : jTruthy succ with _ | _
        · simp [hv, hsucc, hst, getProjectsOut, bind_run, liftE_run, pure_run]
        · rcases hd : dGetDE v "data" (.obj []) with e | data <;>
            simp [hv, hsucc, hst, hd, getProjectsOut, bind_run, liftE_run, pure_run]

theorem checkStatusOnce_run (s : Syno) (pname : Option String) (target : String)
    (env : Env) (t : Nat) (hs : jTruthy s.session_id = true) :
    checkStatusOnce s pname target env t =
      (checkStatusOut (httpBody (env t (listReqOf s))) pname target,
       [.http (listReqOf s)]) := by
  simp only [checkStatusOnce, bind_run, get_projects_run s env t hs]
  rcases h : getProjectsOut (httpBody (env t (listReqOf s))) with e | pd
  · simp [checkStatusOut, h]
  · rcases pd with _ | ps <;> simp [checkStatusOut, h, pure_run, liftE_run]

theorem resolvePhase_run_byname (s : Syno) (pname : Option String) (pid0 : JVal)
    (env : Env) (t : Nat) (hs : jTruthy s.session_id = true)
    (hc : (optStrTruthy pname && !(jTruthy pid0)) = true) :
    resolvePhase s pname pid0 env t =
      (resolveOut (httpBody (env t (listReqOf s))) pname, [.http (listReqOf s)]) := by
  simp only [resolvePhase, hc, if_true, bind_run, get_projects_run s env t hs]
  rcases h : getProjectsOut (httpBody (env t (listReqOf s))) with e | pd
  · simp [resolveOut, h]
  · rcases pd with _ | ps
    · simp [resolveOut, h, pure_run]
    · rcases hr : resolveIdE ps pname with e | pid
      · simp [resolveOut, h, hr, bind_run, liftE_run]
      · rcases hp : jTruthy pid with _ | _ <;>
          simp [resolveOut, h, hr, hp, bind_run, liftE_run, pure_run]

theorem resolvePhase_run_byid (s : Syno) (pname : Option String) (pid0 : JVal)
    (env : Env) (t : Nat)
    (hc : (optStrTruthy pname && !(jTruthy pid0)) = false) :
    resolvePhase s pname pid0 env t = (.ok (.cont pid0), []) := by
  simp [resolvePhase, hc, pure_run]

theorem regularStart_run (s : Syno) (pid : JVal) (env : Env) (t : Nat) :
    regularStart s pid env t =
      (optSuccessE (httpBody (env t (startReqOf s pid))), [.http (startReqOf s pid)]) := by
  simp only [regularStart, bind_run, mrwe_run, startReqOf]
  rcases h : optSuccessE (httpBody (env t (reqOfWE "entry.cgi" "SYNO.Docker.Project"
      "start" [("_sid", s.session_id), ("id", pid)] true))) with e | b <;>
    simp [h, bind_run, liftE_run, pure_run]

theorem tryCandidates_events (s : Syno) (l : List (String × String × String))
    (env : Env) (t : Nat) :
    ∀ e ∈ (tryCandidates s l env t).2, ∃ c ∈ l, e = .http (candReqOf s c) := by
  induction l generalizing t with
  | nil => intro e he; simp [tryCandidates_nil] at he
  | cons c rest ih =>
    intro e he
    rw [tryCandidates_cons] at he
    rcases h : optSuccessE (httpBody (env t (candReqOf s c))) with _ | b
    · rw [h] at he; simp at he; exact ⟨c, by simp, he⟩
    · rw [h] at he
      cases b
      · simp at he
        rcases he with he | he
        · exact ⟨c, by simp, he⟩
        · obtain ⟨c', hc', he'⟩ := ih (t + 1) e he
          exact ⟨c', by simp [hc'], he'⟩
      · simp at he; exact ⟨c, by simp, he⟩

theorem shutdown_via_api_events (s : Syno) (env : Env) (t : Nat) :
    ∀ e ∈ (shutdown_via_api s env t).2,
      isLogoutEvent e = false ∧ isSshEvent e = false := by
  intro e he
  rcases h : jTruthy s.session_id with _ | _
  · simp [shutdown_via_api, h, pure_run] at he
  · rw [shutdown_via_api, h] at he
    simp only [Bool.not_true, Bool.false_eq_true, if_false] at he
    obtain ⟨c, hc, rfl⟩ := tryCandidates_events s apiEndpoints env t e he
    simp only [apiEndpoints, List.mem_cons, List.not_mem_nil, or_false] at hc
    rcases hc with rfl | rfl | rfl <;>
      simp [isLogoutEvent, isSshEvent, candReqOf, reqOfWE]

theorem shutdown_via_ssh_run (s : Syno) (p : Nat) (o : SshOutcome)
    (env : Env) (t : Nat) :
    shutdown_via_ssh s p o env t =
      (.ok (sshClassify o).1, [.sshRun p (sshCmd s p)]) := rfl

theorem attemptBody_run_api (s1 : Syno) (p : Nat) (o : SshOutcome)
    (env : Env) (t : Nat) :
    attemptBody s1 false p o env t = shutdown_via_api s1 env t := by
  simp only [attemptBody, Bool.not_false, if_true, bind_run]
  rcases h : shutdown_via_api s1 env t with ⟨r, tr⟩
  cases r <;> simp [pure_run]

theorem attemptBody_run_ssh (s1 : Syno) (p : Nat) (o : SshOutcome)
    (env : Env) (t : Nat) :
    attemptBody s1 true p o env t =
      (.ok (sshClassify o).1, [.sshRun p (sshCmd s1 p)]) := by
  simp [attemptBody, bind_run, pure_run, shutdown_via_ssh_run]

theorem attemptBody_events (s1 : Syno) (u : Bool) (p : Nat) (o : SshOutcome)
    (env : Env) (t : Nat) :
    ∀ e ∈ (attemptBody s1 u p o env t).2, isLogoutEvent e = false := by
  intro e he
  cases u
  · rw [attemptBody_run_api] at he
    exact (shutdown_via_api_events s1 env t e he).1
  · rw [attemptBody_run_ssh] at he
    simp at he
    subst he
    rfl

theorem shutdown_run (s : Syno) (u : Bool) (p : Nat) (o : SshOutcome)
    (env : Env) (t : Nat) :
    shutdown s u p o env t =
      match (login s env t).1 with
      | .error _ => (.ok false, [.http (loginReqOf s)])
      | .ok (_, false) => (.ok false, [.http (loginReqOf s)])
      | .ok (s1, true) =>
        match attemptBody s1 u p o env (t + 1) with
        | (.error _, atr) => (.ok false, .http (loginReqOf s) :: atr)
        | (.ok b, atr) =>
          (.ok b, .http (loginReqOf s) ::
            (atr ++ (if jTruthy s1.session_id then [.http (logoutReqOf s1)] else []))) := by
  have hl := login_trace s env t
  rcases h : login s env t with ⟨lr, ltr⟩
  rw [h] at hl
  subst hl
  cases lr with
  | error e => simp [shutdown, catchM_run, bind_run, h, pure_run]
  | ok pr =>
    rcases pr with ⟨s1, ok⟩
    cases ok
    · simp [shutdown, catchM_run, bind_run, h, pure_run]
    · rcases ha : attemptBody s1 u p o env (t + 1) with ⟨ar, atr⟩
      cases ar with
      | error e => simp [shutdown, catchM_run, bind_run, h, ha, pure_run]
      | ok b => simp [shutdown, catchM_run, bind_run, h, ha, pure_run, logout_run]

/-- C3 counterexample: login succeeds, the first shutdown candidate's
decoded body is a JSON array, so `result.get('success')` raises
`AttributeError`; the exception is caught by the top-level handler of
`shutdown`, which returns `False` — and the trace contains no logout
request, refuting "logout is invoked exactly once ... [when] it raises an
exception". -/
theorem shutdown_logout_skipped_on_raise :
    shutdown sNull false 22 SshOutcome.timeout envRaise 0 =
      (.ok false,
       [.http (loginReqOf sNull),
        .http (candReqOf { sNull with session_id := .str "SID" }
          ("entry.cgi", "SYNO.Core.System", "shutdown"))]) ∧
    countE isLogoutEvent (shutdown sNull false 22 SshOutcome.timeout envRaise 0).2 = 0 :=
  ⟨rfl, rfl⟩

/-- C3 amended: per invocation of `shutdown`, the logout request is issued
exactly once when login succeeds with a truthy session token and the
subsequent shutdown attempt completes without raising — whether that attempt
returned success or failure; it is issued zero times when login fails, when
login succeeds but stores a falsy token, and when the attempt raises an
exception (the `try` block has no `finally`, so the top-level handler
converts the exception to `False` without ever reaching the logout call). -/
theorem shutdown_logout_policy (env : Env) (t : Nat) (s : Syno) (u : Bool)
    (p : Nat) (o : SshOutcome) :
    countE isLogoutEvent (shutdown s u p o env t).2 =
      (match (login s env t).1 with
       | .ok (s1, true) =>
         if exceptOk (attemptBody s1 u p o env (t + 1)).1 then
           (if jTruthy s1.session_id then 1 else 0)
         else 0
       | _ => 0) := by
  rw [shutdown_run]
  cases h : (login s env t).1 with
  | error e => simp [countE, isLogoutEvent, loginReqOf, reqOfMR]
  | ok pr =>
    rcases pr with ⟨s1, ok⟩
    cases ok
    · simp [countE, isLogoutEvent, loginReqOf, reqOfMR]
    · rcases ha : attemptBody s1 u p o env (t + 1) with ⟨ar, atr⟩
      have hatr : countE isLogoutEvent atr = 0 :=
        countE_eq_zero _ _ (fun e he => attemptBody_events s1 u p o env (t + 1) e
          (by rw [ha]; exact he))
      cases ar with
      | error e =>
        dsimp only
        rw [ha]
        simp only [exceptOk]
        have hsplit : (Event.http (loginReqOf s) :: atr) =
            [Event.http (loginReqOf s)] ++ atr := rfl
        rw [hsplit, countE_append, hatr]
        simp [countE, isLogoutEvent, loginReqOf, reqOfMR]
      | ok b =>
        dsimp only
        rw [ha]
        simp only [exceptOk]
        cases hj : jTruthy s1.session_id
        · simp only [hj, Bool.false_eq_true, if_false, List.append_nil]
          have hsplit : (Event.http (loginReqOf s) :: atr) =
              [Event.http (loginReqOf s)] ++ atr := rfl
          rw [hsplit, countE_append, hatr]
          simp [countE, isLogoutEvent, loginReqOf, reqOfMR]
        · simp only [hj, if_true]
          have hsplit : (Event.http (loginReqOf s) :: (atr ++ [Event.http (logoutReqOf s1)])) =
              [Event.http (loginReqOf s)] ++ atr ++ [Event.http (logoutReqOf s1)] := by
            simp
          rw [hsplit, countE_append, countE_append, hatr]
          simp [countE, isLogoutEvent, loginReqOf, logoutReqOf, reqOfMR]

theorem shutdown_api_trace_no_ssh (s : Syno) (env : Env) (t : Nat) :
    ∀ e ∈ (shutdown_via_api s env t).2, isSshEvent e = false :=
  fun e he => (shutdown_via_api_events s env t e he).2

/-- C6: when the fallback mode is not selected (`use_ssh = False`), the
remote-shell fallback is never attempted — the trace contains no
remote-shell effect even if every primary candidate fails; when the fallback
mode is selected (`use_ssh = True`), no primary shutdown candidate is ever
attempted, and the remote-shell fallback runs exactly once exactly when
login succeeded. -/
theorem shutdown_fallback_selection (env : Env) (t : Nat) (s : Syno)
    (p : Nat) (o : SshOutcome) :
    countE isSshEvent (shutdown s false p o env t).2 = 0 ∧
    countE isShutdownCandEvent (shutdown s true p o env t).2 = 0 ∧
    countE isSshEvent (shutdown s true p o env t).2 =
      (if loginOkB s env t then 1 else 0) := by
  refine ⟨?_, ?_, ?_⟩
  · rw [shutdown_run]
    cases h : (login s env t).1 with
    | error e => simp [countE, isSshEvent]
    | ok pr =>
      rcases pr with ⟨s1, ok⟩
      cases ok
      · simp [countE, isSshEvent]
      · dsimp only
        rw [attemptBody_run_api]
        rcases ha : shutdown_via_api s1 env (t + 1) with ⟨ar, atr⟩
        have hatr : countE isSshEvent atr = 0 :=
          countE_eq_zero _ _ (fun e he => shutdown_api_trace_no_ssh s1 env (t + 1) e
            (by rw [ha]; exact he))
        cases ar with
        | error e =>
          dsimp only
          have hsplit : (Event.http (loginReqOf s) :: atr) =
              [Event.http (loginReqOf s)] ++ atr := rfl
          rw [hsplit, countE_append, hatr]
          simp [countE, isSshEvent]
        | ok b =>
          dsimp only
          cases hj : jTruthy s1.session_id
          · simp only [hj, Bool.false_eq_true, if_false, List.append_nil]
            have hsplit : (Event.http (loginReqOf s) :: atr) =
                [Event.http (loginReqOf s)] ++ atr := rfl
            rw [hsplit, countE_append, hatr]
            simp [countE, isSshEvent]
          · simp only [hj, if_true]
            have hsplit : (Event.http (loginReqOf s) ::
                  (atr ++ [Event.http (logoutReqOf s1)])) =
                [Event.http (loginReqOf s)] ++ atr ++ [Event.http (logoutReqOf s1)] := by
              simp
            rw [hsplit, countE_append, countE_append, hatr]
            simp [countE, isSshEvent]
  · rw [shutdown_run]
    cases h : (login s env t).1 with
    | error e => simp [countE, isShutdownCandEvent, loginReqOf, reqOfMR]
    | ok pr =>
      rcases pr with ⟨s1, ok⟩
      cases ok
      · simp [countE, isShutdownCandEvent, loginReqOf, reqOfMR]
      · dsimp only
        rw [attemptBody_run_ssh]
        dsimp only
        cases hj : jTruthy s1.session_id <;>
          simp [hj, countE, isShutdownCandEvent, loginReqOf, logoutReqOf, reqOfMR]
  · rw [shutdown_run]
    cases h : (login s env t).1 with
    | error e => simp [countE, isSshEvent, loginOkB, h]
    | ok pr =>
      rcases pr with ⟨s1, ok⟩
      cases ok
      · simp [countE, isSshEvent, loginOkB, h]
      · dsimp only
        rw [attemptBody_run_ssh]
        dsimp only
        cases hj : jTruthy s1.session_id <;>
          simp [hj, countE, isSshEvent, loginOkB, h, loginReqOf, logoutReqOf, reqOfMR]

/-- C9: characterization of the remote-shell fallback.  The monadic wrapper
always yields `.ok` (no exception ever propagates to the caller: every
failure of `subprocess.run` is caught by a dedicated handler), success is
returned exactly when the remote process exits with status zero, and each of
the three distinct failure conditions yields `False` together with its own
distinct diagnostic — the absent `sshpass` helper binary, the expired
timeout, and a non-zero remote exit status with the captured error stream. -/
theorem shutdown_via_ssh_failure_taxonomy (s : Syno) (p : Nat) (o : SshOutcome)
    (env : Env) (t : Nat) :
    shutdown_via_ssh s p o env t =
      (.ok (sshClassify o).1, [.sshRun p (sshCmd s p)]) ∧
    (∀ rc out err, sshClassify (.completed rc out err) =
      if rc == 0 then (true, SshDiag.success) else (false, SshDiag.sshFailed err)) ∧
    sshClassify .timeout = (false, SshDiag.timedOut) ∧
    sshClassify .fileNotFound = (false, SshDiag.sshpassMissing) ∧
    (∀ m, sshClassify (.otherError m) = (false, SshDiag.otherFail m)) :=
  ⟨rfl, fun _ _ _ => rfl, rfl, rfl, fun _ => rfl⟩

theorem except_bind_ok (a : α) (f : α → Except Unit β) :
    (Except.ok a >>= f) = f a := rfl

theorem except_bind_err (e : Unit) (f : α → Except Unit β) :
    ((Except.error e : Except Unit α) >>= f) = .error e := rfl

/-- C5: a start-bundle (resp. stop-bundle) invocation by name, when the list
query reports the bundle's status as RUNNING (resp. STOPPED), returns
success after the name-resolution query and the status-guard query — the
whole trace is those two list requests, so no mutating request is issued. -/
theorem already_in_target_status_short_circuit (envA envB : Env) (t : Nat)
    (s : Syno) (n i k : String)
    (hs : jTruthy s.session_id = true)
    (hn : (n == "") = false)
    (hi : (i == "") = false)
    (ha1 : envA t (listReqOf s) = .body (some (listEnvelope k (recNIS n i "RUNNING"))))
    (ha2 : envA (t + 1) (listReqOf s) = .body (some (listEnvelope k (recNIS n i "RUNNING"))))
    (hb1 : envB t (listReqOf s) = .body (some (listEnvelope k (recNIS n i "STOPPED"))))
    (hb2 : envB (t + 1) (listReqOf s) = .body (some (listEnvelope k (recNIS n i "STOPPED")))) :
    start_project s (some n) none envA t =
      (.ok true, [.http (listReqOf s), .http (listReqOf s)]) ∧
    stop_project s (some n) none envB t =
      (.ok true, [.http (listReqOf s), .http (listReqOf s)]) := by
  have hcond : (optStrTruthy (some n) && !(jTruthy (optToJ (none : Option String)))) = true := by
    simp [optStrTruthy, hn, optToJ, jTruthy]
  have hres : ∀ st : String,
      resolveOut (some (listEnvelope k (recNIS n i st))) (some n) =
        .ok (.cont (.str i)) := by
    intro st
    simp [resolveOut, getProjectsOut, listEnvelope, recNIS, dGetE, dGetDE,
      projectsOfData, resolveIdE, pyEqName, jTruthy, hi, except_bind_ok,
      except_bind_err, List.lookup]
  have hchk : ∀ st : String,
      checkStatusOut (some (listEnvelope k (recNIS n i st))) (some n) st = .ok true := by
    intro st
    simp [checkStatusOut, getProjectsOut, listEnvelope, recNIS, dGetE, dGetDE,
      projectsOfData, firstNameStatusIsE, pyEqName, pyEqStrLit, jTruthy,
      except_bind_ok, except_bind_err, List.lookup]
  constructor
  · simp only [start_project, hs, Bool.not_true, Bool.false_eq_true, if_false,
      optStrTruthy, hn, Bool.not_false, Bool.false_and, Bool.and_false]
    rw [bind_run, resolvePhase_run_byname s (some n) (optToJ none) envA t hs hcond,
      ha1]
    simp only [httpBody]
    rw [hres]
    dsimp only
    simp only [List.length_singleton]
    rw [bind_run, checkStatusOnce_run s (some n) "RUNNING" envA (t + 1) hs, ha2]
    simp only [httpBody]
    rw [hchk]
    dsimp only
    simp [pure_run]
  · simp only [stop_project, hs, Bool.not_true, Bool.false_eq_true, if_false,
      optStrTruthy, hn, Bool.not_false, Bool.false_and, Bool.and_false]
    rw [bind_run, resolvePhase_run_byname s (some n) (optToJ none) envB t hs hcond,
      hb1]
    simp only [httpBody]
    rw [hres]
    dsimp only
    simp only [List.length_singleton]
    rw [bind_run, checkStatusOnce_run s (some n) "STOPPED" envB (t + 1) hs, hb2]
    simp only [httpBody]
    rw [hchk]
    dsimp only
    simp [pure_run]

/-- Witness for `already_in_target_status_short_circuit`. -/
theorem already_in_target_status_short_circuit_witness :
    start_project sA (some "iot") none envC5start 0 =
      (.ok true, [.http (listReqOf sA), .http (listReqOf sA)]) ∧
    stop_project sA (some "iot") none envC5stop 0 =
      (.ok true, [.http (listReqOf sA), .http (listReqOf sA)]) :=
  already_in_target_status_short_circuit envC5start envC5stop 0 sA "iot" "42" "42"
    rfl rfl rfl rfl rfl rfl rfl

theorem firstNameStatusIsE_none_of_named (ps : List JVal) (target : String)
    (h : ∀ rec ∈ ps, ∃ nm, dGetE rec "name" = Except.ok (JVal.str nm)) :
    firstNameStatusIsE ps none target = .ok false := by
  induction ps with
  | nil => rfl
  | cons p rest ih =>
    obtain ⟨nm, hnm⟩ := h p (by simp)
    simp [firstNameStatusIsE, hnm, pyEqName, except_bind_ok,
      ih (fun r hr => h r (by simp [hr]))]

/-- C10: a start-bundle (resp. stop-bundle) invocation given only a bundle
identifier and no bundle name never matches the already-in-target-status
guard (the guard locates the bundle by name, and with `project_name = None`
no named record compares equal), so after the single guard query the
mutating request — `start_stream` (resp. quoted-id `stop`) — is issued
regardless of the statuses the list reported, even when the bundle is
already in the target state. -/
theorem byid_guard_never_matches (env : Env) (t : Nat) (s : Syno) (i : String)
    (fs ds : List (String × JVal))
    (hs : jTruthy s.session_id = true)
    (hi : (i == "") = false)
    (h1 : env t (listReqOf s) = .body (some (.obj fs)))
    (h2 : jTruthy (JVal.obj fs) = true)
    (h3 : jTruthy ((List.lookup "success" fs).getD JVal.null) = true)
    (h4 : (List.lookup "data" fs).getD (JVal.obj []) = JVal.obj ds)
    (h5 : ∀ rec ∈ ds.map Prod.snd, ∃ nm, dGetE rec "name" = Except.ok (JVal.str nm)) :
    (∃ rest, (start_project s none (some i) env t).2 =
        .http (listReqOf s) :: .http (startStreamReqOf s (.str i)) :: rest) ∧
    (∃ rest, (stop_project s none (some i) env t).2 =
        .http (listReqOf s) :: .http (stopQuotedReqOf s (.str i)) :: rest) := by
  have hverdict : ∀ target, checkStatusOut (some (JVal.obj fs)) none target = .ok false := by
    intro target
    simp only [checkStatusOut, getProjectsOut, h2, if_true, dGetE, dGetDE, h4, h3]
    exact firstNameStatusIsE_none_of_named _ _ h5
  have hbyid : (optStrTruthy (none : Option String) && !(jTruthy (optToJ (some i)))) = false := by
    simp [optStrTruthy]
  constructor
  · simp only [start_project, hs, Bool.not_true, Bool.false_eq_true, if_false,
      optStrTruthy, hi, Bool.not_false, Bool.true_and, Bool.and_false]
    rw [bind_run, resolvePhase_run_byid s none (optToJ (some i)) env t hbyid]
    dsimp only [optToJ]
    simp only [List.length_nil, Nat.add_zero, List.nil_append]
    rw [bind_run, checkStatusOnce_run s none "RUNNING" env t hs, h1]
    simp only [httpBody]
    rw [hverdict]
    dsimp only
    simp only [List.length_singleton, Bool.false_eq_true, if_false]
    rw [bind_run, mrwe_run]
    exact ⟨_, rfl⟩
  · simp only [stop_project, hs, Bool.not_true, Bool.false_eq_true, if_false,
      optStrTruthy, hi, Bool.not_false, Bool.true_and, Bool.and_false]
    rw [bind_run, resolvePhase_run_byid s none (optToJ (some i)) env t hbyid]
    dsimp only [optToJ]
    simp only [List.length_nil, Nat.add_zero, List.nil_append]
    rw [bind_run, checkStatusOnce_run s none "STOPPED" env t hs, h1]
    simp only [httpBody]
    rw [hverdict]
    dsimp only
    simp only [List.length_singleton, Bool.false_eq_true, if_false]
    rw [bind_run, mrwe_run]
    exact ⟨_, rfl⟩

/-- Witness for `byid_guard_never_matches`: the bundle is reported RUNNING,
yet the by-id start still issues `start_stream` (and the by-id stop still
issues the quoted-id `stop`). -/
theorem byid_guard_never_matches_witness :
    (∃ rest, (start_project sA none (some "42") envC10 0).2 =
        .http (listReqOf sA) :: .http (startStreamReqOf sA (.str "42")) :: rest) ∧
    (∃ rest, (stop_project sA none (some "42") envC10 0).2 =
        .http (listReqOf sA) :: .http (stopQuotedReqOf sA (.str "42")) :: rest) :=
  byid_guard_never_matches envC10 0 sA "42"
    [("success", JVal.bool true), ("data", JVal.obj [("42", projRec)])]
    [("42", projRec)] rfl rfl rfl rfl rfl rfl
    (by
      intro rec hr
      simp at hr
      subst hr
      exact ⟨"iot", rfl⟩)

/-- C4: consider any start-bundle invocation that reaches the `start_stream`
request — the head guards pass, name resolution continues with id `pid`
after trace `rtr`, and the already-running guard's verdict is `False` — and
suppose the `start_stream` response has no decodable JSON body.  Then the
operation is not reported as failure at that point: the next effect is
exactly one verification re-query of the bundle list, and whatever follows
it contains no further list query and no further `start_stream` (so exactly
one verification poll precedes any final outcome); moreover if the poll's
verdict is RUNNING-verified, the operation ends right there with success. -/
theorem start_stream_ambiguous_verification (env : Env) (t : Nat) (s : Syno)
    (pname pid0 : Option String) (pid : JVal) (rtr : List Event)
    (hs : jTruthy s.session_id = true)
    (hargs : (!(optStrTruthy pname) && !(optStrTruthy pid0)) = false)
    (hr : resolvePhase s pname (optToJ pid0) env t = (.ok (.cont pid), rtr))
    (hg : checkStatusOut (httpBody (env (t + rtr.length) (listReqOf s))) pname
      "RUNNING" = .ok false)
    (hss : env (t + rtr.length + 1) (startStreamReqOf s pid) = .body none) :
    (∃ rest,
      (start_project s pname pid0 env t).2 =
        rtr ++ .http (listReqOf s) :: .http (startStreamReqOf s pid) ::
          .http (listReqOf s) :: rest ∧
      rest.all (fun e => !(isListEvent e) && !(isStartStreamEvent e)) = true) ∧
    (checkStatusOut (httpBody (env (t + rtr.length + 1 + 1) (listReqOf s))) pname
        "RUNNING" = .ok true →
      start_project s pname pid0 env t =
        (.ok true, rtr ++ [.http (listReqOf s), .http (startStreamReqOf s pid),
          .http (listReqOf s)])) := by
  have hchain : ∀ v,
      checkStatusOut (httpBody (env (t + rtr.length + 1 + 1) (listReqOf s))) pname
        "RUNNING" = v →
      start_project s pname pid0 env t =
        (match v with
         | .error e =>
           (Except.error e, rtr ++ [.http (listReqOf s),
             .http (startStreamReqOf s pid), .http (listReqOf s)])
         | .ok true =>
           (.ok true, rtr ++ [.http (listReqOf s),
             .http (startStreamReqOf s pid), .http (listReqOf s)])
         | .ok false =>
           ((regularStart s pid env (t + rtr.length + 1 + 1 + 1)).1,
            rtr ++ .http (listReqOf s) :: .http (startStreamReqOf s pid) ::
              .http (listReqOf s) ::
              (regularStart s pid env (t + rtr.length + 1 + 1 + 1)).2)) := by
    intro v hv
    simp only [start_project, hs, Bool.not_true, Bool.false_eq_true, if_false, hargs]
    rw [bind_run, hr]
    dsimp only
    rw [bind_run, checkStatusOnce_run s pname "RUNNING" env (t + rtr.length) hs, hg]
    dsimp only
    simp only [List.length_singleton, Bool.false_eq_true, if_false]
    simp only [startStreamReqOf] at hss
    rw [bind_run, mrwe_run, hss]
    simp only [httpBody]
    simp only [List.length_singleton]
    rw [bind_run,
      checkStatusOnce_run s pname "RUNNING" env (t + rtr.length + 1 + 1) hs, hv]
    rcases v with e | b
    · dsimp only
      simp [List.append_assoc, startStreamReqOf, pure_run]
    · cases b
      · dsimp only
        simp only [List.length_singleton]
        simp [List.append_assoc, startStreamReqOf, pure_run]
      · dsimp only
        simp [List.append_assoc, startStreamReqOf, pure_run]
  refine ⟨?_, ?_⟩
  · rcases hv : checkStatusOut (httpBody (env (t + rtr.length + 1 + 1)
        (listReqOf s))) pname "RUNNING" with e | b
    · rw [hchain _ hv]
      exact ⟨[], by simp⟩
    · cases b
      · rw [hchain _ hv]
        rw [regularStart_run]
        refine ⟨[.http (startReqOf s pid)], ?_, ?_⟩
        · simp
        · simp [isListEvent, isStartStreamEvent, startReqOf, reqOfWE]
      · rw [hchain _ hv]
        exact ⟨[], by simp⟩
  · intro hv
    rw [hchain _ hv]

/-- Witness for `start_stream_ambiguous_verification`: the non-JSON
`start_stream` response leads to one verification poll which sees RUNNING,
and the operation succeeds with exactly those three requests. -/
theorem start_stream_ambiguous_verification_witness :
    start_project sA (some "iot") (some "42") envC4 0 =
      (.ok true, [.http (listReqOf sA), .http (startStreamReqOf sA (.str "42")),
        .http (listReqOf sA)]) := by
  have h := (start_stream_ambiguous_verification envC4 0 sA (some "iot") (some "42")
    (.str "42") [] rfl rfl rfl rfl rfl).2 rfl
  simpa using h
